import Mathlib

/- Verification of the cricket dashboard's feed-normalization and match-upsert
pipeline.  The definitions below are a shallow embedding of the Python code in
src/utils/api_client.py (CricbuzzAPI.get_live_matches / get_recent_matches)
and src/utils/db_connection.py (DatabaseConnection.insert_real_match_data,
matches table schema). -/

/-- JSON-like values: the shape of the payloads `response.json()` produces and
that the Python code traverses.  Objects keep insertion order, as Python dicts
do; object keys are unique in every payload a JSON parser can produce. -/
inductive Json where
  | null
  | bool (b : Bool)
  | num (n : Int)
  | str (s : String)
  | arr (elems : List Json)
  | obj (fields : List (String × Json))

mutual

/-- Decidable equality on `Json` (written by hand: the nested `List` makes the
derive handler unavailable). -/
def jsonDecEq : (a b : Json) → Decidable (a = b)
  | .null, .null => .isTrue rfl
  | .null, .bool _ => .isFalse (fun h => Json.noConfusion h)
  | .null, .num _ => .isFalse (fun h => Json.noConfusion h)
  | .null, .str _ => .isFalse (fun h => Json.noConfusion h)
  | .null, .arr _ => .isFalse (fun h => Json.noConfusion h)
  | .null, .obj _ => .isFalse (fun h => Json.noConfusion h)
  | .bool _, .null => .isFalse (fun h => Json.noConfusion h)
  | .bool x, .bool y =>
    if hb : x = y then .isTrue (by rw [hb]) else
      .isFalse (fun h => hb (Json.bool.inj h))
  | .bool _, .num _ => .isFalse (fun h => Json.noConfusion h)
  | .bool _, .str _ => .isFalse (fun h => Json.noConfusion h)
  | .bool _, .arr _ => .isFalse (fun h => Json.noConfusion h)
  | .bool _, .obj _ => .isFalse (fun h => Json.noConfusion h)
  | .num _, .null => .isFalse (fun h => Json.noConfusion h)
  | .num _, .bool _ => .isFalse (fun h => Json.noConfusion h)
  | .num x, .num y =>
    if hn : x = y then .isTrue (by rw [hn]) else
      .isFalse (fun h => hn (Json.num.inj h))
  | .num _, .str _ => .isFalse (fun h => Json.noConfusion h)
  | .num _, .arr _ => .isFalse (fun h => Json.noConfusion h)
  | .num _, .obj _ => .isFalse (fun h => Json.noConfusion h)
  | .str _, .null => .isFalse (fun h => Json.noConfusion h)
  | .str _, .bool _ => .isFalse (fun h => Json.noConfusion h)
  | .str _, .num _ => .isFalse (fun h => Json.noConfusion h)
  | .str x, .str y =>
    if hs : x = y then .isTrue (by rw [hs]) else
      .isFalse (fun h => hs (Json.str.inj h))
  | .str _, .arr _ => .isFalse (fun h => Json.noConfusion h)
  | .str _, .obj _ => .isFalse (fun h => Json.noConfusion h)
  | .arr _, .null => .isFalse (fun h => Json.noConfusion h)
  | .arr _, .bool _ => .isFalse (fun h => Json.noConfusion h)
  | .arr _, .num _ => .isFalse (fun h => Json.noConfusion h)
  | .arr _, .str _ => .isFalse (fun h => Json.noConfusion h)
  | .arr xs, .arr ys =>
    match jsonListDecEq xs ys with
    | .isTrue h => .isTrue (by rw [h])
    | .isFalse h => .isFalse (fun hh => h (Json.arr.inj hh))
  | .arr _, .obj _ => .isFalse (fun h => Json.noConfusion h)
  | .obj _, .null => .isFalse (fun h => Json.noConfusion h)
  | .obj _, .bool _ => .isFalse (fun h => Json.noConfusion h)
  | .obj _, .num _ => .isFalse (fun h => Json.noConfusion h)
  | .obj _, .str _ => .isFalse (fun h => Json.noConfusion h)
  | .obj _, .arr _ => .isFalse (fun h => Json.noConfusion h)
  | .obj fs, .obj gs =>
    match jsonFieldsDecEq fs gs with
    | .isTrue h => .isTrue (by rw [h])
    | .isFalse h => .isFalse (fun hh => h (Json.obj.inj hh))

/-- Decidable equality on lists of `Json`. -/
def jsonListDecEq : (xs ys : List Json) → Decidable (xs = ys)
  | [], [] => .isTrue rfl
  | [], _ :: _ => .isFalse (fun h => List.noConfusion h)
  | _ :: _, [] => .isFalse (fun h => List.noConfusion h)
  | x :: xs, y :: ys =>
    match jsonDecEq x y with
    | .isFalse h => .isFalse (fun hh => h (List.cons.inj hh).1)
    | .isTrue h1 =>
      match jsonListDecEq xs ys with
      | .isTrue h2 => .isTrue (by rw [h1, h2])
      | .isFalse h2 => .isFalse (fun hh => h2 (List.cons.inj hh).2)

/-- Decidable equality on association lists of `Json` fields. -/
def jsonFieldsDecEq : (fs gs : List (String × Json)) → Decidable (fs = gs)
  | [], [] => .isTrue rfl
  | [], _ :: _ => .isFalse (fun h => List.noConfusion h)
  | _ :: _, [] => .isFalse (fun h => List.noConfusion h)
  | (k, v) :: fs, (k2, v2) :: gs =>
    if hk : k = k2 then
      match jsonDecEq v v2 with
      | .isTrue hv =>
        match jsonFieldsDecEq fs gs with
        | .isTrue ht => .isTrue (by rw [hk, hv, ht])
        | .isFalse ht => .isFalse (fun hh => ht (List.cons.inj hh).2)
      | .isFalse hv => .isFalse (fun hh => hv (congrArg Prod.snd (List.cons.inj hh).1))
    else .isFalse (fun hh => hk (congrArg Prod.fst (List.cons.inj hh).1))

end

instance : DecidableEq Json := jsonDecEq

/-- Errors the Python runtime can raise while the traversal code runs.  All of
them are caught by the surrounding `except Exception` handler of
`get_live_matches` / `get_recent_matches`. -/
inductive PyError where
  | typeError
  | attributeError
  | keyError
deriving DecidableEq, Repr

instance {ε α : Type} [DecidableEq ε] [DecidableEq α] : DecidableEq (Except ε α) := by
  intro a b
  cases a <;> cases b
  case error.error e1 e2 =>
    exact if h : e1 = e2 then .isTrue (by rw [h]) else
      .isFalse (fun hh => h (Except.error.inj hh))
  case ok.ok a1 a2 =>
    exact if h : a1 = a2 then .isTrue (by rw [h]) else
      .isFalse (fun hh => h (Except.ok.inj hh))
  case error.ok e1 a2 => exact .isFalse (fun hh => Except.noConfusion hh)
  case ok.error a1 e2 => exact .isFalse (fun hh => Except.noConfusion hh)

/-- First-binding lookup in an association list, the semantics of indexing a
Python dict (keys are unique in dicts produced by a JSON parser, so first
binding is the binding). -/
def dlookup (k : String) : List (String × Json) → Option Json
  | [] => none
  | (k2, v) :: rest => if k = k2 then some v else dlookup k rest

/-- Does the first character list lead the second one (i.e. is it an initial
segment)? -/
def leadsWith : List Char → List Char → Bool
  | [], _ => true
  | _ :: _, [] => false
  | a :: as, b :: bs => a = b && leadsWith as bs

/-- Does the first character list occur contiguously inside the second one? -/
def hasSubSeq (needle : List Char) : List Char → Bool
  | [] => needle.isEmpty
  | b :: bs => leadsWith needle (b :: bs) || hasSubSeq needle bs

/-- Python substring test `needle in hay` for strings. -/
def pyStrContains (needle hay : String) : Bool :=
  hasSubSeq needle.toList hay.toList

/-- Python `key in value`: key membership for dicts, element membership for
lists, substring for strings, `TypeError` otherwise. -/
def pyContains (k : String) : Json → Except PyError Bool
  | .obj fields => .ok (dlookup k fields).isSome
  | .arr xs => .ok (xs.any (fun x => x = Json.str k))
  | .str s => .ok (pyStrContains k s)
  | .null => .error .typeError
  | .bool _ => .error .typeError
  | .num _ => .error .typeError

/-- Python `value[key]` with a string key: dict lookup (`KeyError` when the key
is missing), `TypeError` for every non-dict value (list and string indices must
be integers). -/
def pyIndexStr (j : Json) (k : String) : Except PyError Json :=
  match j with
  | .obj fields =>
    match dlookup k fields with
    | some v => .ok v
    | none => .error .keyError
  | _ => .error .typeError

/-- Python `for x in value`: list elements, dict keys (in insertion order),
string characters, `TypeError` otherwise. -/
def pyIter : Json → Except PyError (List Json)
  | .arr xs => .ok xs
  | .obj fields => .ok (fields.map (fun p => Json.str p.1))
  | .str s => .ok (s.toList.map (fun c => Json.str c.toString))
  | .null => .error .typeError
  | .bool _ => .error .typeError
  | .num _ => .error .typeError

/-- Python `value.get(key, default)`: only dicts have `.get`; every other
value raises `AttributeError`. -/
def pyDictGet (j : Json) (k : String) (dflt : Json) : Except PyError Json :=
  match j with
  | .obj fields => .ok ((dlookup k fields).getD dflt)
  | _ => .error .attributeError

theorem ebind_ok {α β : Type} (a : α) (f : α → Except PyError β) :
    (Except.ok a >>= f) = f a := rfl

theorem ebind_err {α β : Type} (e : PyError) (f : α → Except PyError β) :
    ((Except.error e : Except PyError α) >>= f) = Except.error e := rfl

example : pyContains "typeMatches" (Json.num 5) = .error .typeError := rfl
example : pyContains "a" (Json.obj [("a", Json.null)]) = .ok true := by decide
example : pyStrContains "ab" "cab" = true := by decide
example : pyStrContains "ab" "cb" = false := by decide

/-- A normalized match record: the flat Python dict that
`get_live_matches` / `get_recent_matches` append to their `matches` list.
Represented as an association list in insertion order, like a Python dict. -/
abbrev RecordDict := List (String × Json)

/-- Effectful map over a list: the first raised error aborts the whole
computation (as a Python exception escaping a `for` loop does). -/
def mapExcept {α β : Type} (f : α → Except PyError β) : List α → Except PyError (List β)
  | [] => .ok []
  | x :: xs => do
    let y ← f x
    let ys ← mapExcept f xs
    return y :: ys

/-- Effectful flat-map over a list, first error aborting the computation. -/
def flatMapExcept {α β : Type} (f : α → Except PyError (List β)) :
    List α → Except PyError (List β)
  | [] => .ok []
  | x :: xs => do
    let ys ← f x
    let rest ← flatMapExcept f xs
    return ys ++ rest

/-- The dict literal `get_live_matches` appends for one leaf match
(api_client.py lines 111-123), field by field in source order.  Each value is a
`match_info.get(...)` / chained `.get` with the source's default. -/
def buildRecordLive (match_info series_info : Json) : Except PyError RecordDict := do
  let mid ← pyDictGet match_info "matchId" Json.null
  let desc ← pyDictGet match_info "matchDesc" (Json.str "")
  let fmt ← pyDictGet match_info "matchFormat" (Json.str "")
  let statusv ← pyDictGet match_info "status" (Json.str "")
  let statev ← pyDictGet match_info "state" (Json.str "")
  let t1o ← pyDictGet match_info "team1" (Json.obj [])
  let t1 ← pyDictGet t1o "teamName" (Json.str "")
  let t2o ← pyDictGet match_info "team2" (Json.obj [])
  let t2 ← pyDictGet t2o "teamName" (Json.str "")
  let vo1 ← pyDictGet match_info "venueInfo" (Json.obj [])
  let ven ← pyDictGet vo1 "ground" (Json.str "")
  let vo2 ← pyDictGet match_info "venueInfo" (Json.obj [])
  let cty ← pyDictGet vo2 "city" (Json.str "")
  let ser ← pyDictGet series_info "seriesName" (Json.str "")
  let sd ← pyDictGet match_info "startDate" (Json.str "")
  return [("match_id", mid), ("description", desc), ("format", fmt),
          ("status", statusv), ("state", statev), ("team1", t1), ("team2", t2),
          ("venue", ven), ("city", cty), ("series", ser), ("start_date", sd)]

/-- The dict literal `get_recent_matches` appends for one leaf match
(api_client.py lines 149-162): same fields as the live one plus a
`result` field that re-reads `status`. -/
def buildRecordRecent (match_info series_info : Json) : Except PyError RecordDict := do
  let mid ← pyDictGet match_info "matchId" Json.null
  let desc ← pyDictGet match_info "matchDesc" (Json.str "")
  let fmt ← pyDictGet match_info "matchFormat" (Json.str "")
  let statusv ← pyDictGet match_info "status" (Json.str "")
  let statev ← pyDictGet match_info "state" (Json.str "")
  let t1o ← pyDictGet match_info "team1" (Json.obj [])
  let t1 ← pyDictGet t1o "teamName" (Json.str "")
  let t2o ← pyDictGet match_info "team2" (Json.obj [])
  let t2 ← pyDictGet t2o "teamName" (Json.str "")
  let vo1 ← pyDictGet match_info "venueInfo" (Json.obj [])
  let ven ← pyDictGet vo1 "ground" (Json.str "")
  let vo2 ← pyDictGet match_info "venueInfo" (Json.obj [])
  let cty ← pyDictGet vo2 "city" (Json.str "")
  let ser ← pyDictGet series_info "seriesName" (Json.str "")
  let res ← pyDictGet match_info "status" (Json.str "")
  let sd ← pyDictGet match_info "startDate" (Json.str "")
  return [("match_id", mid), ("description", desc), ("format", fmt),
          ("status", statusv), ("state", statev), ("team1", t1), ("team2", t2),
          ("venue", ven), ("city", cty), ("series", ser), ("result", res),
          ("start_date", sd)]

/-- Innermost loop body: `match_info = match.get('matchInfo', {})` followed by
the record literal. -/
def processMatch (build : Json → Json → Except PyError RecordDict)
    (series_info m : Json) : Except PyError RecordDict := do
  let match_info ← pyDictGet m "matchInfo" (Json.obj [])
  build match_info series_info

/-- Middle loop body: `if 'seriesAdWrapper' in series: series_info = ...;
if 'matches' in series_info: for match in series_info['matches']: ...`. -/
def processSeries (build : Json → Json → Except PyError RecordDict)
    (series : Json) : Except PyError (List RecordDict) := do
  if (← pyContains "seriesAdWrapper" series) then
    let series_info ← pyIndexStr series "seriesAdWrapper"
    if (← pyContains "matches" series_info) then
      let ms ← pyIter (← pyIndexStr series_info "matches")
      mapExcept (processMatch build series_info) ms
    else
      return []
  else
    return []

/-- Outer loop body: `if 'seriesMatches' in match_type: for series in
match_type['seriesMatches']: ...`. -/
def processGroup (build : Json → Json → Except PyError RecordDict)
    (g : Json) : Except PyError (List RecordDict) := do
  if (← pyContains "seriesMatches" g) then
    flatMapExcept (processSeries build) (← pyIter (← pyIndexStr g "seriesMatches"))
  else
    return []

/-- The whole `matches = []; if 'typeMatches' in data: for ...` traversal
shared verbatim by `get_live_matches` and `get_recent_matches`; the two
functions differ only in the record literal (`build`) and in what they do with
the accumulated list afterwards. -/
def normalizeCore (build : Json → Json → Except PyError RecordDict)
    (data : Json) : Except PyError (List RecordDict) := do
  if (← pyContains "typeMatches" data) then
    flatMapExcept (processGroup build) (← pyIter (← pyIndexStr data "typeMatches"))
  else
    return []

/-- `CricbuzzAPI.get_live_matches` after the payload is in hand: the traversal
runs under `try`, and the `except Exception` arm returns `[]`. -/
def get_live_matches (data : Json) : List RecordDict :=
  match normalizeCore buildRecordLive data with
  | .ok l => l
  | .error _ => []

/-- `CricbuzzAPI.get_recent_matches` after the payload is in hand: same
shape, but the success path returns `matches[:20]`. -/
def get_recent_matches (data : Json) : List RecordDict :=
  match normalizeCore buildRecordRecent data with
  | .ok l => l.take 20
  | .error _ => []

/-- `get_live_matches` with the Streamlit message calls (`st.info`,
`st.success`, `st.error`) modeled as appending lines to a UI log, the only
externally visible effect of the function besides its return value. -/
def live_run (ui : List String) (data : Json) : List RecordDict × List String :=
  let ui1 := ui ++ ["Fetching live matches from Cricbuzz API..."]
  match normalizeCore buildRecordLive data with
  | .ok l => (l, ui1 ++ ["Found " ++ toString l.length ++ " matches from API"])
  | .error _ => ([], ui1 ++ ["Error fetching live matches"])

/-- `get_recent_matches` with the Streamlit message calls modeled as appending
lines to a UI log. -/
def recent_run (ui : List String) (data : Json) : List RecordDict × List String :=
  let ui1 := ui ++ ["Fetching recent matches from Cricbuzz API..."]
  match normalizeCore buildRecordRecent data with
  | .ok l =>
    (l.take 20, ui1 ++ ["Found " ++ toString l.length ++ " recent matches from API"])
  | .error _ => ([], ui1 ++ ["Error fetching recent matches"])

/-- One row of the `matches` table (db_connection.py lines 100-125).
`match_id` is the auto-increment primary key; `cricbuzz_match_id` is the
external identifier column declared `INT UNIQUE` (nullable, and MySQL allows
any number of NULLs under a UNIQUE index); the three `*_id` columns are the
foreign keys to teams/venues, populated only by the separate CRUD path;
`created_at` is `TIMESTAMP DEFAULT CURRENT_TIMESTAMP`.  Columns that hold
bound parameters are modeled as `Json` values (the Python driver binds
whatever value the dict held). -/
structure MatchRow where
  match_id : Nat
  cricbuzz_match_id : Json
  match_description : Json
  team1_id : Option Nat
  team2_id : Option Nat
  venue_id : Option Nat
  match_date : Json
  match_format : Json
  toss_winner : Json
  toss_decision : Json
  winning_team : Json
  victory_margin : Json
  match_status : Json
  series_name : Json
  current_status : Json
  created_at : Nat
deriving DecidableEq

/-- The mutable store: the `matches` table contents, the next auto-increment
primary-key value, and the current timestamp used for `created_at`. -/
structure Db where
  rows : List MatchRow
  nextId : Nat
  now : Nat
deriving DecidableEq

/-- The seven bound parameters of the `INSERT INTO matches ... ON DUPLICATE
KEY UPDATE` statement, in binding order (db_connection.py lines 349-357). -/
structure MatchParams where
  p_match_id : Json
  p_description : Json
  p_format : Json
  p_date : Json
  p_series : Json
  p_status : Json
  p_state : Json
deriving DecidableEq

/-- Python `dict.get(key, default)` on a plain dict argument. -/
def dictGetD (d : RecordDict) (k : String) (dflt : Json) : Json :=
  (dlookup k d).getD dflt

/-- The params tuple of `insert_real_match_data`, exactly as the source
computes it: note it reads key `date` (not the normalizer's `start_date`),
with string default `'2024-08-29'`, and key `state` with default
`'Unknown'`; `match_data.get('match_id')` defaults to Python `None`. -/
def mkParams (d : RecordDict) : MatchParams where
  p_match_id := dictGetD d "match_id" Json.null
  p_description := dictGetD d "description" (Json.str "")
  p_format := dictGetD d "format" (Json.str "")
  p_date := dictGetD d "date" (Json.str "2024-08-29")
  p_series := dictGetD d "series" (Json.str "")
  p_status := dictGetD d "status" (Json.str "")
  p_state := dictGetD d "state" (Json.str "Unknown")

/-- The row a plain INSERT of the seven parameters creates: every column not
named in the column list takes its schema default (NULL foreign keys, NULL
toss/result columns, CURRENT_TIMESTAMP for `created_at`, auto-increment
primary key). -/
def mkNewRow (id now : Nat) (p : MatchParams) : MatchRow where
  match_id := id
  cricbuzz_match_id := p.p_match_id
  match_description := p.p_description
  team1_id := none
  team2_id := none
  venue_id := none
  match_date := p.p_date
  match_format := p.p_format
  toss_winner := Json.null
  toss_decision := Json.null
  winning_team := Json.null
  victory_margin := Json.null
  match_status := p.p_state
  series_name := p.p_series
  current_status := p.p_status
  created_at := now

/-- MySQL semantics of the statement `INSERT INTO matches (cricbuzz_match_id,
match_description, match_format, match_date, series_name, current_status,
match_status) VALUES (...) ON DUPLICATE KEY UPDATE current_status =
VALUES(current_status), match_status = VALUES(match_status)` against the
schema's `cricbuzz_match_id INT UNIQUE`: a duplicate-key conflict happens
exactly when the inserted identifier is non-NULL and equals an existing row's
identifier (NULLs never conflict under a UNIQUE index); on conflict only the
two named columns of the matching row are overwritten, otherwise a fresh row
is appended. -/
def applyUpsert (db : Db) (p : MatchParams) : Db :=
  if p.p_match_id ≠ Json.null ∧ ∃ r ∈ db.rows, r.cricbuzz_match_id = p.p_match_id then
    { db with
      rows := db.rows.map (fun r =>
        if r.cricbuzz_match_id = p.p_match_id then
          { r with current_status := p.p_status, match_status := p.p_state }
        else r) }
  else
    { db with rows := db.rows ++ [mkNewRow db.nextId db.now p],
              nextId := db.nextId + 1 }

/-- How one call to `insert_real_match_data` can go.  `connFail`:
`get_connection()` returned `None`.  `sqlError`: `cursor.execute` raised a
`mysql.connector.Error` (the statement failed, so with `autocommit` on a
single failed statement the table is untouched). `ok`: the statement ran. -/
inductive DbOutcome where
  | ok
  | connFail
  | sqlError
deriving DecidableEq, Repr

/-- `DatabaseConnection.insert_real_match_data` (db_connection.py lines
330-369): returns `False` without touching the table when the connection is
unavailable; returns `False` when the driver raises (the `except
mysql.connector.Error` arm); otherwise binds the seven parameters from the
input dict, runs the upsert statement, commits, and returns `True`.  The
duplicate-key case is handled inside the SQL statement itself, so it follows
the `ok` path. -/
def insert_real_match_data (oc : DbOutcome) (db : Db) (match_data : RecordDict) :
    Bool × Db :=
  match oc with
  | .connFail => (false, db)
  | .sqlError => (false, db)
  | .ok => (true, applyUpsert db (mkParams match_data))

/-- A team sub-object of the feed: `teamName` present or absent (the code
reads nothing else from it). -/
def encTeam (t : Option String) : Json :=
  Json.obj (match t with
    | none => []
    | some s => [("teamName", Json.str s)])

/-- Key/value pair present only when the value is: the building block for
encoding payload objects with optional keys. -/
def optField (k : String) (v : Option Json) : List (String × Json) :=
  match v with
  | none => []
  | some j => [(k, j)]

/-- Structured description of a `matchInfo` object in which every key the
normalizer reads may independently be present or absent.  `team1`/`team2`:
`none` means the whole sub-object is absent, `some t` a sub-object whose
`teamName` is `t`.  `venueInfo`: `none` means the whole sub-object is absent,
otherwise it carries optional `ground` and `city`. -/
structure SMatchInfo where
  matchId : Option Int
  matchDesc : Option String
  matchFormat : Option String
  startDate : Option String
  state : Option String
  status : Option String
  team1 : Option (Option String)
  team2 : Option (Option String)
  venueInfo : Option (Option String × Option String)

/-- The all-absent `matchInfo`: what a leaf match with no (or an empty)
`matchInfo` object amounts to. -/
def noInfo : SMatchInfo where
  matchId := none
  matchDesc := none
  matchFormat := none
  startDate := none
  state := none
  status := none
  team1 := none
  team2 := none
  venueInfo := none

/-- Encode a venue sub-object. -/
def encVenue (v : Option String × Option String) : Json :=
  Json.obj (optField "ground" (v.1.map Json.str) ++ optField "city" (v.2.map Json.str))

/-- Encode a `matchInfo` object, with each key present exactly when the
structured description has it. -/
def encInfo (mi : SMatchInfo) : Json :=
  Json.obj
    (optField "matchId" (mi.matchId.map Json.num) ++
      (optField "matchDesc" (mi.matchDesc.map Json.str) ++
        (optField "matchFormat" (mi.matchFormat.map Json.str) ++
          (optField "startDate" (mi.startDate.map Json.str) ++
            (optField "state" (mi.state.map Json.str) ++
              (optField "status" (mi.status.map Json.str) ++
                (optField "team1" (mi.team1.map encTeam) ++
                  (optField "team2" (mi.team2.map encTeam) ++
                    optField "venueInfo" (mi.venueInfo.map encVenue)))))))))

/-- A leaf match entry: its `matchInfo` key may be absent. -/
def encMatch (m : Option SMatchInfo) : Json :=
  Json.obj (optField "matchInfo" (m.map encInfo))

/-- Structured `seriesAdWrapper` object: optional `seriesName`, optional
`matches` list. -/
structure SSeriesInfo where
  name : Option String
  matchList : Option (List (Option SMatchInfo))

/-- Encode a `seriesAdWrapper` object. -/
def encSeriesInfo (si : SSeriesInfo) : Json :=
  Json.obj
    (optField "seriesName" (si.name.map Json.str) ++
      optField "matches" (si.matchList.map (fun ms => Json.arr (ms.map encMatch))))

/-- A series group: its `seriesAdWrapper` key may be absent. -/
abbrev SSeries := Option SSeriesInfo

/-- Encode a series group. -/
def encSeries (s : SSeries) : Json :=
  Json.obj (optField "seriesAdWrapper" (s.map encSeriesInfo))

/-- A match-type group: its `seriesMatches` key may be absent. -/
abbrev SGroup := Option (List SSeries)

/-- Encode a match-type group. -/
def encGroup (g : SGroup) : Json :=
  Json.obj (optField "seriesMatches" (g.map (fun ss => Json.arr (ss.map encSeries))))

/-- Encode a whole feed payload: a mapping whose `typeMatches` key holds the
list of match-type groups. -/
def encPayload (p : List SGroup) : Json :=
  Json.obj [("typeMatches", Json.arr (p.map encGroup))]

/-- The `matchId` value a record carries: the stored value when present,
Python `None` when absent. -/
def jOptInt : Option Int → Json
  | none => Json.null
  | some i => Json.num i

/-- The string value a record carries for an optional payload field: the
stored string when present, the empty-string default when absent. -/
def jStrD (o : Option String) : Json :=
  Json.str (o.getD "")

/-- The record `get_live_matches` produces for one leaf match whose series
wrapper carries `sname` — every field its documented default when the payload
key is missing. -/
def expRecordLive (sname : Option String) (mi : SMatchInfo) : RecordDict :=
  [("match_id", jOptInt mi.matchId),
   ("description", jStrD mi.matchDesc),
   ("format", jStrD mi.matchFormat),
   ("status", jStrD mi.status),
   ("state", jStrD mi.state),
   ("team1", jStrD (mi.team1.getD none)),
   ("team2", jStrD (mi.team2.getD none)),
   ("venue", jStrD ((mi.venueInfo.getD (none, none)).1)),
   ("city", jStrD ((mi.venueInfo.getD (none, none)).2)),
   ("series", jStrD sname),
   ("start_date", jStrD mi.startDate)]

/-- The record `get_recent_matches` produces for one leaf match: the live
record plus the `result` duplicate of `status`. -/
def expRecordRecent (sname : Option String) (mi : SMatchInfo) : RecordDict :=
  [("match_id", jOptInt mi.matchId),
   ("description", jStrD mi.matchDesc),
   ("format", jStrD mi.matchFormat),
   ("status", jStrD mi.status),
   ("state", jStrD mi.state),
   ("team1", jStrD (mi.team1.getD none)),
   ("team2", jStrD (mi.team2.getD none)),
   ("venue", jStrD ((mi.venueInfo.getD (none, none)).1)),
   ("city", jStrD ((mi.venueInfo.getD (none, none)).2)),
   ("series", jStrD sname),
   ("result", jStrD mi.status),
   ("start_date", jStrD mi.startDate)]

/-- Records one series group contributes: none when the wrapper or its
`matches` key is missing, else one record per listed leaf match in order. -/
def expSeries (exp : Option String → SMatchInfo → RecordDict) : SSeries → List RecordDict
  | none => []
  | some si =>
    match si.matchList with
    | none => []
    | some ms => ms.map (fun m => exp si.name (m.getD noInfo))

/-- Concatenation of the images of a list's elements, in list order. -/
def flatConcat {α γ : Type} (g : α → List γ) : List α → List γ
  | [] => []
  | x :: xs => g x ++ flatConcat g xs

/-- Records one match-type group contributes: none when its `seriesMatches`
key is missing, else its series groups' records concatenated in order. -/
def expGroup (exp : Option String → SMatchInfo → RecordDict) : SGroup → List RecordDict
  | none => []
  | some ss => flatConcat (expSeries exp) ss

/-- The depth-first record sequence of a whole payload: group by group, series
by series, match by match, never reordered. -/
def expPayload (exp : Option String → SMatchInfo → RecordDict)
    (p : List SGroup) : List RecordDict :=
  flatConcat (expGroup exp) p

@[simp] theorem dlookup_optField_cons (k k2 : String) (v : Option Json)
    (rest : List (String × Json)) :
    dlookup k (optField k2 v ++ rest) =
      (if k = k2 then
        (match v with
         | some j => some j
         | none => dlookup k rest)
       else dlookup k rest) := by
  cases v <;> by_cases h : k = k2 <;> simp [optField, dlookup, h]

@[simp] theorem dlookup_optField (k k2 : String) (v : Option Json) :
    dlookup k (optField k2 v) = (if k = k2 then v else none) := by
  cases v <;> by_cases h : k = k2 <;> simp [optField, dlookup, h]

@[simp] theorem optField_none (k : String) : optField k none = [] := rfl

@[simp] theorem optField_some (k : String) (j : Json) : optField k (some j) = [(k, j)] := rfl

@[simp] theorem dlookup_nil (k : String) : dlookup k [] = none := rfl

@[simp] theorem dlookup_cons (k k2 : String) (v : Json) (rest : List (String × Json)) :
    dlookup k ((k2, v) :: rest) = (if k = k2 then some v else dlookup k rest) := rfl

@[simp] theorem pyDictGet_encInfo_matchId (mi : SMatchInfo) :
    pyDictGet (encInfo mi) "matchId" Json.null = .ok (jOptInt mi.matchId) := by
  cases h : mi.matchId <;> simp [encInfo, pyDictGet, jOptInt, h]

@[simp] theorem pyDictGet_encInfo_matchDesc (mi : SMatchInfo) :
    pyDictGet (encInfo mi) "matchDesc" (Json.str "") = .ok (jStrD mi.matchDesc) := by
  cases h : mi.matchDesc <;> simp [encInfo, pyDictGet, jStrD, h]

@[simp] theorem pyDictGet_encInfo_matchFormat (mi : SMatchInfo) :
    pyDictGet (encInfo mi) "matchFormat" (Json.str "") = .ok (jStrD mi.matchFormat) := by
  cases h : mi.matchFormat <;> simp [encInfo, pyDictGet, jStrD, h]

@[simp] theorem pyDictGet_encInfo_startDate (mi : SMatchInfo) :
    pyDictGet (encInfo mi) "startDate" (Json.str "") = .ok (jStrD mi.startDate) := by
  cases h : mi.startDate <;> simp [encInfo, pyDictGet, jStrD, h]

@[simp] theorem pyDictGet_encInfo_state (mi : SMatchInfo) :
    pyDictGet (encInfo mi) "state" (Json.str "") = .ok (jStrD mi.state) := by
  cases h : mi.state <;> simp [encInfo, pyDictGet, jStrD, h]

@[simp] theorem pyDictGet_encInfo_status (mi : SMatchInfo) :
    pyDictGet (encInfo mi) "status" (Json.str "") = .ok (jStrD mi.status) := by
  cases h : mi.status <;> simp [encInfo, pyDictGet, jStrD, h]

@[simp] theorem pyDictGet_encInfo_team1 (mi : SMatchInfo) :
    pyDictGet (encInfo mi) "team1" (Json.obj []) = .ok (encTeam (mi.team1.getD none)) := by
  cases h : mi.team1 <;> simp [encInfo, pyDictGet, encTeam, h]

@[simp] theorem pyDictGet_encInfo_team2 (mi : SMatchInfo) :
    pyDictGet (encInfo mi) "team2" (Json.obj []) = .ok (encTeam (mi.team2.getD none)) := by
  cases h : mi.team2 <;> simp [encInfo, pyDictGet, encTeam, h]

@[simp] theorem pyDictGet_encInfo_venueInfo (mi : SMatchInfo) :
    pyDictGet (encInfo mi) "venueInfo" (Json.obj []) =
      .ok (encVenue (mi.venueInfo.getD (none, none))) := by
  cases h : mi.venueInfo <;> simp [encInfo, pyDictGet, encVenue, h]

@[simp] theorem pyDictGet_encTeam (t : Option String) :
    pyDictGet (encTeam t) "teamName" (Json.str "") = .ok (jStrD t) := by
  cases t <;> simp [pyDictGet, encTeam, dlookup, jStrD]

@[simp] theorem pyDictGet_encVenue_ground (v : Option String × Option String) :
    pyDictGet (encVenue v) "ground" (Json.str "") = .ok (jStrD v.1) := by
  cases h : v.1 <;> simp [encVenue, pyDictGet, jStrD, h]

@[simp] theorem pyDictGet_encVenue_city (v : Option String × Option String) :
    pyDictGet (encVenue v) "city" (Json.str "") = .ok (jStrD v.2) := by
  cases h : v.2 <;> simp [encVenue, pyDictGet, jStrD, h]

@[simp] theorem pyDictGet_encSeriesInfo_name (si : SSeriesInfo) :
    pyDictGet (encSeriesInfo si) "seriesName" (Json.str "") = .ok (jStrD si.name) := by
  cases h : si.name <;> simp [encSeriesInfo, pyDictGet, jStrD, h]

@[simp] theorem pyDictGet_encMatch (m : Option SMatchInfo) :
    pyDictGet (encMatch m) "matchInfo" (Json.obj []) = .ok (encInfo (m.getD noInfo)) := by
  cases m <;> simp [pyDictGet, encMatch, optField, dlookup, encInfo, noInfo]

theorem buildRecordLive_enc (si : SSeriesInfo) (mi : SMatchInfo) :
    buildRecordLive (encInfo mi) (encSeriesInfo si) = .ok (expRecordLive si.name mi) := by
  simp [buildRecordLive, ebind_ok, expRecordLive]

theorem buildRecordRecent_enc (si : SSeriesInfo) (mi : SMatchInfo) :
    buildRecordRecent (encInfo mi) (encSeriesInfo si) = .ok (expRecordRecent si.name mi) := by
  simp [buildRecordRecent, ebind_ok, expRecordRecent]

theorem mapExcept_map {α β γ : Type} (f : β → Except PyError γ) (e : α → β) (g : α → γ)
    (h : ∀ x, f (e x) = .ok (g x)) :
    ∀ l : List α, mapExcept f (l.map e) = .ok (l.map g)
  | [] => rfl
  | x :: xs => by
    simp only [List.map_cons, mapExcept, h x, ebind_ok, mapExcept_map f e g h xs]
    rfl

theorem flatMapExcept_map {α β γ : Type} (f : β → Except PyError (List γ)) (e : α → β)
    (g : α → List γ) (h : ∀ x, f (e x) = .ok (g x)) :
    ∀ l : List α, flatMapExcept f (l.map e) = .ok (flatConcat g l)
  | [] => rfl
  | x :: xs => by
    simp only [List.map_cons, flatMapExcept, h x, ebind_ok,
      flatMapExcept_map f e g h xs, flatConcat]
    rfl

theorem processMatch_enc (build : Json → Json → Except PyError RecordDict)
    (expRec : Option String → SMatchInfo → RecordDict)
    (hb : ∀ si mi, build (encInfo mi) (encSeriesInfo si) = .ok (expRec si.name mi))
    (si : SSeriesInfo) (m : Option SMatchInfo) :
    processMatch build (encSeriesInfo si) (encMatch m) =
      .ok (expRec si.name (m.getD noInfo)) := by
  simp only [processMatch, pyDictGet_encMatch, ebind_ok, hb]

theorem epure_def {α : Type} (a : α) : (pure a : Except PyError α) = Except.ok a := rfl

@[simp] theorem pyContains_encSeries (s : SSeries) :
    pyContains "seriesAdWrapper" (encSeries s) = .ok s.isSome := by
  cases s <;> simp [pyContains, encSeries]

@[simp] theorem pyIndexStr_encSeries (si : SSeriesInfo) :
    pyIndexStr (encSeries (some si)) "seriesAdWrapper" = .ok (encSeriesInfo si) := by
  simp [pyIndexStr, encSeries]

@[simp] theorem pyContains_encSeriesInfo_matches (si : SSeriesInfo) :
    pyContains "matches" (encSeriesInfo si) = .ok si.matchList.isSome := by
  cases hml : si.matchList <;> cases hnm : si.name <;>
    simp [pyContains, encSeriesInfo, hml, hnm]

theorem pyIndexStr_encSeriesInfo_matches (si : SSeriesInfo)
    (ms : List (Option SMatchInfo)) (h : si.matchList = some ms) :
    pyIndexStr (encSeriesInfo si) "matches" = .ok (Json.arr (ms.map encMatch)) := by
  cases hnm : si.name <;> simp [pyIndexStr, encSeriesInfo, h, hnm]

@[simp] theorem pyContains_encGroup (g : SGroup) :
    pyContains "seriesMatches" (encGroup g) = .ok g.isSome := by
  cases g <;> simp [pyContains, encGroup]

@[simp] theorem pyIndexStr_encGroup (ss : List SSeries) :
    pyIndexStr (encGroup (some ss)) "seriesMatches" = .ok (Json.arr (ss.map encSeries)) := by
  simp [pyIndexStr, encGroup]

@[simp] theorem pyContains_encPayload (p : List SGroup) :
    pyContains "typeMatches" (encPayload p) = .ok true := by
  simp [pyContains, encPayload]

@[simp] theorem pyIndexStr_encPayload (p : List SGroup) :
    pyIndexStr (encPayload p) "typeMatches" = .ok (Json.arr (p.map encGroup)) := by
  simp [pyIndexStr, encPayload]

theorem processSeries_enc (build : Json → Json → Except PyError RecordDict)
    (expRec : Option String → SMatchInfo → RecordDict)
    (hb : ∀ si mi, build (encInfo mi) (encSeriesInfo si) = .ok (expRec si.name mi)) :
    ∀ s : SSeries, processSeries build (encSeries s) = .ok (expSeries expRec s)
  | none => by
    simp [processSeries, ebind_ok, epure_def, expSeries]
  | some si => by
    cases hml : si.matchList with
    | none =>
      simp [processSeries, ebind_ok, epure_def, hml, expSeries]
    | some ms =>
      have hmap := mapExcept_map (processMatch build (encSeriesInfo si)) encMatch
        (fun m => expRec si.name (m.getD noInfo)) (processMatch_enc build expRec hb si) ms
      simp [processSeries, ebind_ok, epure_def, hml,
        pyIndexStr_encSeriesInfo_matches si ms hml, pyIter, hmap, expSeries]

theorem processGroup_enc (build : Json → Json → Except PyError RecordDict)
    (expRec : Option String → SMatchInfo → RecordDict)
    (hb : ∀ si mi, build (encInfo mi) (encSeriesInfo si) = .ok (expRec si.name mi)) :
    ∀ g : SGroup, processGroup build (encGroup g) = .ok (expGroup expRec g)
  | none => by
    simp [processGroup, ebind_ok, epure_def, expGroup]
  | some ss => by
    have hmap := flatMapExcept_map (processSeries build) encSeries (expSeries expRec)
      (processSeries_enc build expRec hb) ss
    simp [processGroup, ebind_ok, epure_def, pyIter, hmap, expGroup]

theorem normalizeCore_enc (build : Json → Json → Except PyError RecordDict)
    (expRec : Option String → SMatchInfo → RecordDict)
    (hb : ∀ si mi, build (encInfo mi) (encSeriesInfo si) = .ok (expRec si.name mi))
    (p : List SGroup) :
    normalizeCore build (encPayload p) = .ok (expPayload expRec p) := by
  have hmap := flatMapExcept_map (processGroup build) encGroup (expGroup expRec)
    (processGroup_enc build expRec hb) p
  simp [normalizeCore, ebind_ok, epure_def, pyIter, hmap, expPayload]

theorem get_live_matches_enc (p : List SGroup) :
    get_live_matches (encPayload p) = expPayload expRecordLive p := by
  simp [get_live_matches,
    normalizeCore_enc buildRecordLive expRecordLive buildRecordLive_enc p]

theorem get_recent_matches_enc (p : List SGroup) :
    get_recent_matches (encPayload p) = (expPayload expRecordRecent p).take 20 := by
  simp [get_recent_matches,
    normalizeCore_enc buildRecordRecent expRecordRecent buildRecordRecent_enc p]

theorem map_eq_self_of {α : Type} (f : α → α) :
    ∀ l : List α, (∀ x ∈ l, f x = x) → l.map f = l
  | [], _ => rfl
  | x :: xs, h => by
    rw [List.map_cons, h x (List.mem_cons_self x xs),
      map_eq_self_of f xs (fun y hy => h y (List.mem_cons_of_mem x hy))]

theorem flatConcat_append {α γ : Type} (g : α → List γ) :
    ∀ l1 l2 : List α, flatConcat g (l1 ++ l2) = flatConcat g l1 ++ flatConcat g l2
  | [], l2 => rfl
  | x :: xs, l2 => by
    simp [flatConcat, flatConcat_append g xs l2]

theorem mapExcept_ok_mem {α β : Type} (f : α → Except PyError β) :
    ∀ (l : List α) (out : List β), mapExcept f l = .ok out →
      ∀ y ∈ out, ∃ x ∈ l, f x = .ok y
  | [], out, h => by
    simp only [mapExcept] at h
    cases h
    intro y hy
    exact absurd hy (List.not_mem_nil y)
  | x :: xs, out, h => by
    intro y hy
    unfold mapExcept at h
    cases hfx : f x
    case error => rw [hfx, ebind_err] at h; exact Except.noConfusion h
    rename_i z
    rw [hfx] at h
    simp only [ebind_ok] at h
    cases hm : mapExcept f xs
    case error => rw [hm, ebind_err] at h; exact Except.noConfusion h
    rename_i zs
    rw [hm] at h
    simp only [ebind_ok, epure_def] at h
    cases h
    rcases List.mem_cons.mp hy with h1 | h2
    · exact ⟨x, List.mem_cons_self x xs, by rw [hfx, h1]⟩
    · rcases mapExcept_ok_mem f xs zs hm y h2 with ⟨x2, hx2, hfx2⟩
      exact ⟨x2, List.mem_cons_of_mem x hx2, hfx2⟩

theorem flatMapExcept_ok_mem {α β : Type} (f : α → Except PyError (List β)) :
    ∀ (l : List α) (out : List β), flatMapExcept f l = .ok out →
      ∀ y ∈ out, ∃ x ∈ l, ∃ ys, f x = .ok ys ∧ y ∈ ys
  | [], out, h => by
    simp only [flatMapExcept] at h
    cases h
    intro y hy
    exact absurd hy (List.not_mem_nil y)
  | x :: xs, out, h => by
    intro y hy
    unfold flatMapExcept at h
    cases hfx : f x
    case error => rw [hfx, ebind_err] at h; exact Except.noConfusion h
    rename_i zs
    rw [hfx] at h
    simp only [ebind_ok] at h
    cases hm : flatMapExcept f xs
    case error => rw [hm, ebind_err] at h; exact Except.noConfusion h
    rename_i rest
    rw [hm] at h
    simp only [ebind_ok, epure_def] at h
    cases h
    rcases List.mem_append.mp hy with h1 | h2
    · exact ⟨x, List.mem_cons_self x xs, zs, hfx, h1⟩
    · rcases flatMapExcept_ok_mem f xs rest hm y h2 with ⟨x2, hx2, ys2, hf2, hy2⟩
      exact ⟨x2, List.mem_cons_of_mem x hx2, ys2, hf2, hy2⟩

theorem processMatch_ok {build : Json → Json → Except PyError RecordDict}
    {series_info m : Json} {d : RecordDict}
    (h : processMatch build series_info m = .ok d) :
    ∃ mi, build mi series_info = .ok d := by
  unfold processMatch at h
  cases hg : pyDictGet m "matchInfo" (Json.obj [])
  case error => rw [hg, ebind_err] at h; exact Except.noConfusion h
  rename_i mi
  rw [hg] at h
  simp only [ebind_ok] at h
  exact ⟨mi, h⟩

theorem processSeries_ok_mem {build : Json → Json → Except PyError RecordDict}
    {series : Json} {out : List RecordDict}
    (h : processSeries build series = .ok out) {d : RecordDict} (hd : d ∈ out) :
    ∃ mi si, build mi si = .ok d := by
  unfold processSeries at h
  cases hc : pyContains "seriesAdWrapper" series
  case error => rw [hc, ebind_err] at h; exact Except.noConfusion h
  rename_i b
  rw [hc] at h
  simp only [ebind_ok] at h
  cases b
  case false =>
    simp only [Bool.false_eq_true, if_false, epure_def] at h
    cases h
    exact absurd hd (List.not_mem_nil d)
  case true =>
  simp only [if_true] at h
  cases hi : pyIndexStr series "seriesAdWrapper"
  case error => rw [hi, ebind_err] at h; exact Except.noConfusion h
  rename_i si
  rw [hi] at h
  simp only [ebind_ok] at h
  cases hc2 : pyContains "matches" si
  case error => rw [hc2, ebind_err] at h; exact Except.noConfusion h
  rename_i b2
  rw [hc2] at h
  simp only [ebind_ok] at h
  cases b2
  case false =>
    simp only [Bool.false_eq_true, if_false, epure_def] at h
    cases h
    exact absurd hd (List.not_mem_nil d)
  case true =>
  simp only [if_true] at h
  cases hi2 : pyIndexStr si "matches"
  case error => rw [hi2, ebind_err] at h; exact Except.noConfusion h
  rename_i mv
  rw [hi2] at h
  simp only [ebind_ok] at h
  cases hit : pyIter mv
  case error => rw [hit, ebind_err] at h; exact Except.noConfusion h
  rename_i ms
  rw [hit] at h
  simp only [ebind_ok] at h
  rcases mapExcept_ok_mem (processMatch build si) ms out h d hd with ⟨m, _, hm⟩
  rcases processMatch_ok hm with ⟨mi, hb⟩
  exact ⟨mi, si, hb⟩

theorem processGroup_ok_mem {build : Json → Json → Except PyError RecordDict}
    {g : Json} {out : List RecordDict}
    (h : processGroup build g = .ok out) {d : RecordDict} (hd : d ∈ out) :
    ∃ mi si, build mi si = .ok d := by
  unfold processGroup at h
  cases hc : pyContains "seriesMatches" g
  case error => rw [hc, ebind_err] at h; exact Except.noConfusion h
  rename_i b
  rw [hc] at h
  simp only [ebind_ok] at h
  cases b
  case false =>
    simp only [Bool.false_eq_true, if_false, epure_def] at h
    cases h
    exact absurd hd (List.not_mem_nil d)
  case true =>
  simp only [if_true] at h
  cases hi : pyIndexStr g "seriesMatches"
  case error => rw [hi, ebind_err] at h; exact Except.noConfusion h
  rename_i sv
  rw [hi] at h
  simp only [ebind_ok] at h
  cases hit : pyIter sv
  case error => rw [hit, ebind_err] at h; exact Except.noConfusion h
  rename_i ss
  rw [hit] at h
  simp only [ebind_ok] at h
  rcases flatMapExcept_ok_mem (processSeries build) ss out h d hd with ⟨s, _, ys, hs, hy⟩
  exact processSeries_ok_mem hs hy

theorem normalizeCore_ok_mem {build : Json → Json → Except PyError RecordDict}
    {data : Json} {out : List RecordDict}
    (h : normalizeCore build data = .ok out) {d : RecordDict} (hd : d ∈ out) :
    ∃ mi si, build mi si = .ok d := by
  unfold normalizeCore at h
  cases hc : pyContains "typeMatches" data
  case error => rw [hc, ebind_err] at h; exact Except.noConfusion h
  rename_i b
  rw [hc] at h
  simp only [ebind_ok] at h
  cases b
  case false =>
    simp only [Bool.false_eq_true, if_false, epure_def] at h
    cases h
    exact absurd hd (List.not_mem_nil d)
  case true =>
  simp only [if_true] at h
  cases hi : pyIndexStr data "typeMatches"
  case error => rw [hi, ebind_err] at h; exact Except.noConfusion h
  rename_i tv
  rw [hi] at h
  simp only [ebind_ok] at h
  cases hit : pyIter tv
  case error => rw [hit, ebind_err] at h; exact Except.noConfusion h
  rename_i gs
  rw [hit] at h
  simp only [ebind_ok] at h
  rcases flatMapExcept_ok_mem (processGroup build) gs out h d hd with ⟨g, _, ys, hg, hy⟩
  exact processGroup_ok_mem hg hy

theorem buildRecordLive_ok_keys {mi si : Json} {r : RecordDict}
    (h : buildRecordLive mi si = .ok r) :
    r.map Prod.fst = ["match_id", "description", "format", "status", "state",
      "team1", "team2", "venue", "city", "series", "start_date"] := by
  unfold buildRecordLive at h
  cases h1 : pyDictGet mi "matchId" Json.null
  case error => rw [h1, ebind_err] at h; exact Except.noConfusion h
  rename_i x1
  rw [h1] at h
  simp only [ebind_ok] at h
  cases h2 : pyDictGet mi "matchDesc" (Json.str "")
  case error => rw [h2, ebind_err] at h; exact Except.noConfusion h
  rename_i x2
  rw [h2] at h
  simp only [ebind_ok] at h
  cases h3 : pyDictGet mi "matchFormat" (Json.str "")
  case error => rw [h3, ebind_err] at h; exact Except.noConfusion h
  rename_i x3
  rw [h3] at h
  simp only [ebind_ok] at h
  cases h4 : pyDictGet mi "status" (Json.str "")
  case error => rw [h4, ebind_err] at h; exact Except.noConfusion h
  rename_i x4
  rw [h4] at h
  simp only [ebind_ok] at h
  cases h5 : pyDictGet mi "state" (Json.str "")
  case error => rw [h5, ebind_err] at h; exact Except.noConfusion h
  rename_i x5
  rw [h5] at h
  simp only [ebind_ok] at h
  cases h6 : pyDictGet mi "team1" (Json.obj [])
  case error => rw [h6, ebind_err] at h; exact Except.noConfusion h
  rename_i x6
  rw [h6] at h
  simp only [ebind_ok] at h
  cases h7 : pyDictGet x6 "teamName" (Json.str "")
  case error => rw [h7, ebind_err] at h; exact Except.noConfusion h
  rename_i x7
  rw [h7] at h
  simp only [ebind_ok] at h
  cases h8 : pyDictGet mi "team2" (Json.obj [])
  case error => rw [h8, ebind_err] at h; exact Except.noConfusion h
  rename_i x8
  rw [h8] at h
  simp only [ebind_ok] at h
  cases h9 : pyDictGet x8 "teamName" (Json.str "")
  case error => rw [h9, ebind_err] at h; exact Except.noConfusion h
  rename_i x9
  rw [h9] at h
  simp only [ebind_ok] at h
  cases h10 : pyDictGet mi "venueInfo" (Json.obj [])
  case error => rw [h10, ebind_err] at h; exact Except.noConfusion h
  rename_i x10
  rw [h10] at h
  simp only [ebind_ok] at h
  cases h11 : pyDictGet x10 "ground" (Json.str "")
  case error => rw [h11, ebind_err] at h; exact Except.noConfusion h
  rename_i x11
  rw [h11] at h
  simp only [ebind_ok] at h
  cases h13 : pyDictGet x10 "city" (Json.str "")
  case error => rw [h13, ebind_err] at h; exact Except.noConfusion h
  rename_i x13
  rw [h13] at h
  simp only [ebind_ok] at h
  cases h14 : pyDictGet si "seriesName" (Json.str "")
  case error => rw [h14, ebind_err] at h; exact Except.noConfusion h
  rename_i x14
  rw [h14] at h
  simp only [ebind_ok] at h
  cases h15 : pyDictGet mi "startDate" (Json.str "")
  case error => rw [h15, ebind_err] at h; exact Except.noConfusion h
  rename_i x15
  rw [h15] at h
  simp only [ebind_ok, epure_def] at h
  cases h
  rfl

theorem buildRecordRecent_ok_keys {mi si : Json} {r : RecordDict}
    (h : buildRecordRecent mi si = .ok r) :
    r.map Prod.fst = ["match_id", "description", "format", "status", "state",
      "team1", "team2", "venue", "city", "series", "result", "start_date"] := by
  unfold buildRecordRecent at h
  cases h1 : pyDictGet mi "matchId" Json.null
  case error => rw [h1, ebind_err] at h; exact Except.noConfusion h
  rename_i x1
  rw [h1] at h
  simp only [ebind_ok] at h
  cases h2 : pyDictGet mi "matchDesc" (Json.str "")
  case error => rw [h2, ebind_err] at h; exact Except.noConfusion h
  rename_i x2
  rw [h2] at h
  simp only [ebind_ok] at h
  cases h3 : pyDictGet mi "matchFormat" (Json.str "")
  case error => rw [h3, ebind_err] at h; exact Except.noConfusion h
  rename_i x3
  rw [h3] at h
  simp only [ebind_ok] at h
  cases h4 : pyDictGet mi "status" (Json.str "")
  case error => rw [h4, ebind_err] at h; exact Except.noConfusion h
  rename_i x4
  rw [h4] at h
  simp only [ebind_ok] at h
  cases h5 : pyDictGet mi "state" (Json.str "")
  case error => rw [h5, ebind_err] at h; exact Except.noConfusion h
  rename_i x5
  rw [h5] at h
  simp only [ebind_ok] at h
  cases h6 : pyDictGet mi "team1" (Json.obj [])
  case error => rw [h6, ebind_err] at h; exact Except.noConfusion h
  rename_i x6
  rw [h6] at h
  simp only [ebind_ok] at h
  cases h7 : pyDictGet x6 "teamName" (Json.str "")
  case error => rw [h7, ebind_err] at h; exact Except.noConfusion h
  rename_i x7
  rw [h7] at h
  simp only [ebind_ok] at h
  cases h8 : pyDictGet mi "team2" (Json.obj [])
  case error => rw [h8, ebind_err] at h; exact Except.noConfusion h
  rename_i x8
  rw [h8] at h
  simp only [ebind_ok] at h
  cases h9 : pyDictGet x8 "teamName" (Json.str "")
  case error => rw [h9, ebind_err] at h; exact Except.noConfusion h
  rename_i x9
  rw [h9] at h
  simp only [ebind_ok] at h
  cases h10 : pyDictGet mi "venueInfo" (Json.obj [])
  case error => rw [h10, ebind_err] at h; exact Except.noConfusion h
  rename_i x10
  rw [h10] at h
  simp only [ebind_ok] at h
  cases h11 : pyDictGet x10 "ground" (Json.str "")
  case error => rw [h11, ebind_err] at h; exact Except.noConfusion h
  rename_i x11
  rw [h11] at h
  simp only [ebind_ok] at h
  cases h13 : pyDictGet x10 "city" (Json.str "")
  case error => rw [h13, ebind_err] at h; exact Except.noConfusion h
  rename_i x13
  rw [h13] at h
  simp only [ebind_ok] at h
  cases h14 : pyDictGet si "seriesName" (Json.str "")
  case error => rw [h14, ebind_err] at h; exact Except.noConfusion h
  rename_i x14
  rw [h14] at h
  simp only [ebind_ok] at h
  cases h16 : pyDictGet mi "startDate" (Json.str "")
  case error => rw [h16, ebind_err] at h; exact Except.noConfusion h
  rename_i x16
  rw [h16] at h
  simp only [ebind_ok, epure_def] at h
  cases h
  rfl

theorem dlookup_eq_none_of_keys {k : String} :
    ∀ r : RecordDict, k ∉ r.map Prod.fst → dlookup k r = none
  | [], _ => rfl
  | (k2, v) :: rest, h => by
    have hk : k ≠ k2 := by
      intro he
      exact h (by rw [he]; exact List.mem_cons_self k2 _)
    rw [dlookup_cons, if_neg hk]
    exact dlookup_eq_none_of_keys rest (fun hm => h (List.mem_cons_of_mem _ hm))

theorem dlookup_isSome_of_keys {k : String} :
    ∀ r : RecordDict, k ∈ r.map Prod.fst → (dlookup k r).isSome = true
  | [], h => absurd h (List.not_mem_nil k)
  | (k2, v) :: rest, h => by
    rw [List.map_cons] at h
    rw [dlookup_cons]
    by_cases hk : k = k2
    · rw [if_pos hk]; rfl
    · rw [if_neg hk]
      rcases List.mem_cons.mp h with h1 | h2
      · exact absurd h1 hk
      · exact dlookup_isSome_of_keys rest h2

/-- C1: re-ingesting a record whose non-null external identifier already has a
stored row does not create a second row: the matching row's `current_status`
(the record's status text) and `match_status` (the record's state text) are
overwritten and every other stored field of that row — description, format,
date, series name, team/venue foreign keys, created_at — and every other row
and the rest of the store are unchanged. -/
theorem upsert_existing_row_in_place (db : Db) (d : RecordDict)
    (pre post : List MatchRow) (r : MatchRow)
    (hnn : (mkParams d).p_match_id ≠ Json.null)
    (hrows : db.rows = pre ++ r :: post)
    (hr : r.cricbuzz_match_id = (mkParams d).p_match_id)
    (hpre : ∀ x ∈ pre, x.cricbuzz_match_id ≠ (mkParams d).p_match_id)
    (hpost : ∀ x ∈ post, x.cricbuzz_match_id ≠ (mkParams d).p_match_id) :
    insert_real_match_data DbOutcome.ok db d =
      (true, { db with rows := pre ++
        { r with current_status := (mkParams d).p_status,
                 match_status := (mkParams d).p_state } :: post }) := by
  unfold insert_real_match_data applyUpsert
  rw [if_pos ⟨hnn, r, hrows ▸ List.mem_append_right pre (List.mem_cons_self r post), hr⟩]
  rw [hrows, List.map_append, List.map_cons, if_pos hr,
    map_eq_self_of _ pre (fun x hx => if_neg (hpre x hx)),
    map_eq_self_of _ post (fun x hx => if_neg (hpost x hx))]

/-- Sample stored row for the upsert witnesses: external identifier 12345,
foreign keys already set by the CRUD path. -/
def wRow : MatchRow where
  match_id := 1
  cricbuzz_match_id := Json.num 12345
  match_description := Json.str "1st Test"
  team1_id := some 3
  team2_id := some 4
  venue_id := some 7
  match_date := Json.str "2024-08-29"
  match_format := Json.str "TEST"
  toss_winner := Json.null
  toss_decision := Json.null
  winning_team := Json.null
  victory_margin := Json.null
  match_status := Json.str "Day 1"
  series_name := Json.str "India vs Australia Test Series 2024"
  current_status := Json.str "Live"
  created_at := 50

/-- Sample normalized record sharing identifier 12345 with `wRow` but with new
status/state text. -/
def wRec : RecordDict :=
  [("match_id", Json.num 12345), ("description", Json.str "1st Test"),
   ("format", Json.str "TEST"), ("status", Json.str "Stumps"),
   ("state", Json.str "Day 1 Complete"), ("start_date", Json.str "2024-08-28")]

/-- Witness for C1 at a one-row store. -/
theorem upsert_existing_row_in_place_witness :
    insert_real_match_data DbOutcome.ok ⟨[wRow], 2, 99⟩ wRec =
      (true, ⟨[{ wRow with
                   current_status := (mkParams wRec).p_status,
                   match_status := (mkParams wRec).p_state }], 2, 99⟩) :=
  upsert_existing_row_in_place ⟨[wRow], 2, 99⟩ wRec [] [] wRow (by decide) rfl (by decide)
    (fun x hx => absurd hx (List.not_mem_nil x))
    (fun x hx => absurd hx (List.not_mem_nil x))

/-- C7: a record with a null external identifier is still written — the new
row stores a null identifier — and a second identical call appends a second,
distinct row (distinct auto-increment primary keys); both calls report
success. -/
theorem upsert_null_id_two_rows (db : Db) (d : RecordDict)
    (h : (mkParams d).p_match_id = Json.null) :
    insert_real_match_data DbOutcome.ok db d =
      (true, { db with
                 rows := db.rows ++ [mkNewRow db.nextId db.now (mkParams d)],
                 nextId := db.nextId + 1 }) ∧
    (insert_real_match_data DbOutcome.ok
      (insert_real_match_data DbOutcome.ok db d).2 d).1 = true ∧
    (insert_real_match_data DbOutcome.ok
      (insert_real_match_data DbOutcome.ok db d).2 d).2.rows =
      db.rows ++ [mkNewRow db.nextId db.now (mkParams d),
        mkNewRow (db.nextId + 1) db.now (mkParams d)] ∧
    (mkNewRow db.nextId db.now (mkParams d)).cricbuzz_match_id = Json.null ∧
    (mkNewRow db.nextId db.now (mkParams d)).match_id ≠
      (mkNewRow (db.nextId + 1) db.now (mkParams d)).match_id := by
  have hsingle : ∀ db2 : Db, insert_real_match_data DbOutcome.ok db2 d =
      (true, { db2 with
                 rows := db2.rows ++ [mkNewRow db2.nextId db2.now (mkParams d)],
                 nextId := db2.nextId + 1 }) := by
    intro db2
    unfold insert_real_match_data applyUpsert
    rw [if_neg]
    intro hc
    exact hc.1 h
  refine ⟨hsingle db, ?_, ?_, ?_, ?_⟩
  · rw [hsingle db, hsingle]
  · rw [hsingle db, hsingle]
    simp
  · simp [mkNewRow, h]
  · simp [mkNewRow]

/-- Sample normalized record with a null identifier. -/
def wRecNull : RecordDict :=
  [("match_id", Json.null), ("description", Json.str "Tour Match"),
   ("status", Json.str "Live"), ("state", Json.str "Day 1")]

/-- Witness for C7 at a one-row store. -/
theorem upsert_null_id_two_rows_witness :
    insert_real_match_data DbOutcome.ok ⟨[wRow], 2, 99⟩ wRecNull =
      (true, ⟨[wRow, mkNewRow 2 99 (mkParams wRecNull)], 3, 99⟩) ∧
    (insert_real_match_data DbOutcome.ok
      (insert_real_match_data DbOutcome.ok ⟨[wRow], 2, 99⟩ wRecNull).2 wRecNull).1 = true ∧
    (insert_real_match_data DbOutcome.ok
      (insert_real_match_data DbOutcome.ok ⟨[wRow], 2, 99⟩ wRecNull).2 wRecNull).2.rows =
      [wRow] ++ [mkNewRow 2 99 (mkParams wRecNull), mkNewRow 3 99 (mkParams wRecNull)] ∧
    (mkNewRow 2 99 (mkParams wRecNull)).cricbuzz_match_id = Json.null ∧
    (mkNewRow 2 99 (mkParams wRecNull)).match_id ≠
      (mkNewRow 3 99 (mkParams wRecNull)).match_id := by
  have h := upsert_null_id_two_rows ⟨[wRow], 2, 99⟩ wRecNull (by decide)
  exact h

/-- C8: `insert_real_match_data` returns a boolean for every call — true
exactly when the statement ran (connection obtained and the driver did not
raise), false on connection failure or driver error, in which cases the store
is untouched; the expected duplicate-key condition is resolved inside the
statement itself, so the `ok` path (any store contents, duplicates included)
returns true. -/
theorem upsert_bool_contract (oc : DbOutcome) (db : Db) (d : RecordDict) :
    ((insert_real_match_data oc db d).1 = true ↔ oc = DbOutcome.ok) ∧
    insert_real_match_data DbOutcome.connFail db d = (false, db) ∧
    insert_real_match_data DbOutcome.sqlError db d = (false, db) ∧
    (insert_real_match_data DbOutcome.ok db d).1 = true := by
  cases oc <;> simp [insert_real_match_data]

/-- Witness for C8: a failed call at a concrete store, and the duplicate-key
call of C1's witness store succeeding. -/
theorem upsert_bool_contract_witness :
    ((insert_real_match_data DbOutcome.sqlError ⟨[wRow], 2, 99⟩ wRec).1 = true ↔
      DbOutcome.sqlError = DbOutcome.ok) ∧
    insert_real_match_data DbOutcome.connFail ⟨[wRow], 2, 99⟩ wRec =
      (false, ⟨[wRow], 2, 99⟩) ∧
    insert_real_match_data DbOutcome.sqlError ⟨[wRow], 2, 99⟩ wRec =
      (false, ⟨[wRow], 2, 99⟩) ∧
    (insert_real_match_data DbOutcome.ok ⟨[wRow], 2, 99⟩ wRec).1 = true :=
  upsert_bool_contract DbOutcome.sqlError ⟨[wRow], 2, 99⟩ wRec

/-- A payload with one match-type group, one series group and 21 leaf match
entries: more matches than `get_recent_matches` will return. -/
def bigPayload : Json :=
  encPayload [some [some ⟨some "Big Series", some (List.replicate 21 none)⟩]]

/-- C2 counterexample: on a payload with 21 leaf match entries (as
`get_live_matches` itself confirms by returning 21 records),
`get_recent_matches` returns only 20 records — the traversal's output is
truncated to the first 20, contradicting "one record per leaf entry, never
truncated". -/
theorem normalize_no_truncation_counterexample :
    (get_recent_matches bigPayload).length = 20 ∧
    (get_live_matches bigPayload).length = 21 := by
  constructor <;> rfl

/-- C2 amended: on every feed payload, `get_live_matches` returns exactly one
record per leaf match entry, in depth-first order (groups, then series, then
matches), neither sorted nor deduplicated nor truncated; `get_recent_matches`
produces the same depth-first sequence (with the extra `result` field) but
returns only its first 20 records, truncating anything beyond. -/
theorem normalize_dfs_order_with_cap (p : List SGroup) :
    get_live_matches (encPayload p) = expPayload expRecordLive p ∧
    get_recent_matches (encPayload p) = (expPayload expRecordRecent p).take 20 :=
  ⟨get_live_matches_enc p, get_recent_matches_enc p⟩

/-- Witness for the amended C2 at a two-series payload. -/
theorem normalize_dfs_order_with_cap_witness :
    get_live_matches (encPayload [some [some ⟨some "A", some [none, some noInfo]⟩,
        none]]) =
      expPayload expRecordLive [some [some ⟨some "A", some [none, some noInfo]⟩,
        none]] ∧
    get_recent_matches (encPayload [some [some ⟨some "A", some [none, some noInfo]⟩,
        none]]) =
      (expPayload expRecordRecent [some [some ⟨some "A", some [none, some noInfo]⟩,
        none]]).take 20 :=
  normalize_dfs_order_with_cap [some [some ⟨some "A", some [none, some noInfo]⟩, none]]

/-- C3 counterexample: a scalar payload (not a mapping) does not surface any
error to the caller — the internal `TypeError` is swallowed by the
`except Exception` handler and both functions return the normal empty result
the claim says they must not return. -/
theorem scalar_input_counterexample :
    normalizeCore buildRecordLive (Json.num 5) = .error PyError.typeError ∧
    get_live_matches (Json.num 5) = [] ∧
    get_recent_matches (Json.num 5) = [] := by
  refine ⟨rfl, rfl, rfl⟩

/-- C3 amended: for a non-mapping scalar payload the traversal raises an
internal `TypeError` (at the `'typeMatches' in data` membership test), but the
surrounding handler catches every exception and the caller receives an
ordinary empty list — no `StructuralError` (or any error) is surfaced. -/
theorem scalar_input_swallowed (n : Int) (b : Bool) :
    normalizeCore buildRecordLive (Json.num n) = .error PyError.typeError ∧
    get_live_matches (Json.num n) = [] ∧
    get_recent_matches (Json.num n) = [] ∧
    normalizeCore buildRecordLive (Json.bool b) = .error PyError.typeError ∧
    get_live_matches (Json.bool b) = [] ∧
    normalizeCore buildRecordLive Json.null = .error PyError.typeError ∧
    get_live_matches Json.null = [] := by
  refine ⟨rfl, rfl, rfl, rfl, rfl, rfl, rfl⟩

/-- Witness for the amended C3. -/
theorem scalar_input_swallowed_witness :
    normalizeCore buildRecordLive (Json.num 7) = .error PyError.typeError ∧
    get_live_matches (Json.num 7) = [] ∧
    get_recent_matches (Json.num 7) = [] ∧
    normalizeCore buildRecordLive (Json.bool true) = .error PyError.typeError ∧
    get_live_matches (Json.bool true) = [] ∧
    normalizeCore buildRecordLive Json.null = .error PyError.typeError ∧
    get_live_matches Json.null = [] :=
  scalar_input_swallowed 7 true

/-- C4: a malformed branch is skipped without losing its siblings — removing a
match-type group that lacks `seriesMatches`, a series group that lacks
`seriesAdWrapper`, or a series wrapper that lacks `matches` leaves the
normalizer's output unchanged, so every leaf reachable through the remaining
well-formed branches still yields its record. -/
theorem malformed_branch_skipped (pre post : List SGroup) (ss1 ss2 : List SSeries)
    (nm : Option String) :
    (get_live_matches (encPayload (pre ++ (none : SGroup) :: post)) =
      get_live_matches (encPayload (pre ++ post))) ∧
    (get_live_matches
        (encPayload (pre ++ (some (ss1 ++ (none : SSeries) :: ss2)) :: post)) =
      get_live_matches (encPayload (pre ++ (some (ss1 ++ ss2)) :: post))) ∧
    (get_live_matches
        (encPayload (pre ++ (some (ss1 ++ (some ⟨nm, none⟩ : SSeries) :: ss2)) :: post)) =
      get_live_matches (encPayload (pre ++ (some (ss1 ++ ss2)) :: post))) ∧
    (get_recent_matches (encPayload (pre ++ (none : SGroup) :: post)) =
      get_recent_matches (encPayload (pre ++ post))) := by
  refine ⟨?_, ?_, ?_, ?_⟩ <;>
    simp [get_live_matches_enc, get_recent_matches_enc, expPayload, flatConcat_append,
      flatConcat, expGroup, expSeries]

/-- Witness for C4 at concrete branch lists. -/
theorem malformed_branch_skipped_witness :
    (get_live_matches (encPayload ([some [some ⟨some "A", some [none]⟩]] ++
        (none : SGroup) :: [])) =
      get_live_matches (encPayload ([some [some ⟨some "A", some [none]⟩]] ++ []))) ∧
    (get_live_matches (encPayload ([some [some ⟨some "A", some [none]⟩]] ++
        (some ([] ++ (none : SSeries) :: [])) :: [])) =
      get_live_matches (encPayload ([some [some ⟨some "A", some [none]⟩]] ++
        (some ([] ++ [])) :: []))) ∧
    (get_live_matches (encPayload ([some [some ⟨some "A", some [none]⟩]] ++
        (some ([] ++ (some ⟨some "B", none⟩ : SSeries) :: [])) :: [])) =
      get_live_matches (encPayload ([some [some ⟨some "A", some [none]⟩]] ++
        (some ([] ++ [])) :: []))) ∧
    (get_recent_matches (encPayload ([some [some ⟨some "A", some [none]⟩]] ++
        (none : SGroup) :: [])) =
      get_recent_matches (encPayload ([some [some ⟨some "A", some [none]⟩]] ++ []))) :=
  malformed_branch_skipped [some [some ⟨some "A", some [none]⟩]] [] [] [] (some "B")

/-- C5: a payload whose `typeMatches` key is absent, or maps to an empty
sequence, produces an empty record list from both normalizer entry points, and
the traversal itself completes without any error. -/
theorem empty_feed_empty_output (fields : List (String × Json)) :
    (dlookup "typeMatches" fields = none →
      normalizeCore buildRecordLive (Json.obj fields) = .ok [] ∧
      normalizeCore buildRecordRecent (Json.obj fields) = .ok [] ∧
      get_live_matches (Json.obj fields) = [] ∧
      get_recent_matches (Json.obj fields) = []) ∧
    (dlookup "typeMatches" fields = some (Json.arr []) →
      normalizeCore buildRecordLive (Json.obj fields) = .ok [] ∧
      normalizeCore buildRecordRecent (Json.obj fields) = .ok [] ∧
      get_live_matches (Json.obj fields) = [] ∧
      get_recent_matches (Json.obj fields) = []) := by
  constructor
  · intro h
    have hn : ∀ build, normalizeCore build (Json.obj fields) = .ok [] := by
      intro build
      simp [normalizeCore, pyContains, h, ebind_ok, epure_def]
    exact ⟨hn _, hn _, by simp [get_live_matches, hn buildRecordLive],
      by simp [get_recent_matches, hn buildRecordRecent]⟩
  · intro h
    have hn : ∀ build, normalizeCore build (Json.obj fields) = .ok [] := by
      intro build
      simp [normalizeCore, pyContains, pyIndexStr, pyIter, h, ebind_ok, epure_def,
        flatMapExcept]
    exact ⟨hn _, hn _, by simp [get_live_matches, hn buildRecordLive],
      by simp [get_recent_matches, hn buildRecordRecent]⟩

/-- Witness for C5: a payload with no `typeMatches` key and one whose
`typeMatches` is an empty list. -/
theorem empty_feed_empty_output_witness :
    get_live_matches (Json.obj [("status", Json.str "fallback")]) = [] ∧
    get_live_matches (Json.obj [("typeMatches", Json.arr [])]) = [] ∧
    get_recent_matches (Json.obj [("typeMatches", Json.arr [])]) = [] :=
  ⟨((empty_feed_empty_output [("status", Json.str "fallback")]).1 (by decide)).2.2.1,
   ((empty_feed_empty_output [("typeMatches", Json.arr [])]).2 (by decide)).2.2.1,
   ((empty_feed_empty_output [("typeMatches", Json.arr [])]).2 (by decide)).2.2.2⟩

/-- C6: every record field is extracted with an explicit default — a missing
`matchId` yields a null identifier (distinguishable from any real one), every
missing string field or nested display name yields the empty string, and a
missing `team1`/`team2`/`venueInfo` sub-object (or a wholly missing
`matchInfo`) defaults through an empty object instead of raising. -/
theorem leaf_field_defaults (sname : Option String) (mi : SMatchInfo) :
    get_live_matches (encPayload [some [some ⟨sname, some [some mi]⟩]]) =
      [[("match_id", jOptInt mi.matchId),
        ("description", Json.str (mi.matchDesc.getD "")),
        ("format", Json.str (mi.matchFormat.getD "")),
        ("status", Json.str (mi.status.getD "")),
        ("state", Json.str (mi.state.getD "")),
        ("team1", Json.str ((mi.team1.getD none).getD "")),
        ("team2", Json.str ((mi.team2.getD none).getD "")),
        ("venue", Json.str ((mi.venueInfo.getD (none, none)).1.getD "")),
        ("city", Json.str ((mi.venueInfo.getD (none, none)).2.getD "")),
        ("series", Json.str (sname.getD "")),
        ("start_date", Json.str (mi.startDate.getD ""))]] ∧
    get_live_matches (encPayload [some [some ⟨sname, some [none]⟩]]) =
      [[("match_id", Json.null),
        ("description", Json.str ""), ("format", Json.str ""),
        ("status", Json.str ""), ("state", Json.str ""),
        ("team1", Json.str ""), ("team2", Json.str ""),
        ("venue", Json.str ""), ("city", Json.str ""),
        ("series", Json.str (sname.getD "")),
        ("start_date", Json.str "")]] := by
  constructor <;>
    simp [get_live_matches_enc, expPayload, flatConcat, expGroup, expSeries,
      expRecordLive, jStrD, jOptInt, noInfo]

/-- Witness for C6: a match entry whose `matchInfo` carries only an identifier
(everything else missing), and one with no `matchInfo` at all. -/
theorem leaf_field_defaults_witness :
    get_live_matches (encPayload [some [some ⟨some "Test Series",
        some [some { noInfo with matchId := some 9 }]⟩]]) =
      [[("match_id", jOptInt (some 9)),
        ("description", Json.str ""), ("format", Json.str ""),
        ("status", Json.str ""), ("state", Json.str ""),
        ("team1", Json.str ""), ("team2", Json.str ""),
        ("venue", Json.str ""), ("city", Json.str ""),
        ("series", Json.str "Test Series"),
        ("start_date", Json.str "")]] ∧
    get_live_matches (encPayload [some [some ⟨some "Test Series", some [none]⟩]]) =
      [[("match_id", Json.null),
        ("description", Json.str ""), ("format", Json.str ""),
        ("status", Json.str ""), ("state", Json.str ""),
        ("team1", Json.str ""), ("team2", Json.str ""),
        ("venue", Json.str ""), ("city", Json.str ""),
        ("series", Json.str "Test Series"),
        ("start_date", Json.str "")]] :=
  leaf_field_defaults (some "Test Series") { noInfo with matchId := some 9 }

/-- C9: the normalization traversal is a pure, deterministic function of the
payload already in hand — its record output is the same whatever the
surrounding UI-log state, equals the plain functional traversal, and the only
effect on shared state is appending new message lines to the UI log (the
pre-existing log is never rewritten). -/
theorem normalizer_pure_function (w1 w2 : List String) (data : Json) :
    (live_run w1 data).1 = (live_run w2 data).1 ∧
    (live_run w1 data).1 = get_live_matches data ∧
    (∃ log, (live_run w1 data).2 = w1 ++ log) ∧
    (recent_run w1 data).1 = (recent_run w2 data).1 ∧
    (recent_run w1 data).1 = get_recent_matches data ∧
    (∃ log, (recent_run w1 data).2 = w1 ++ log) := by
  unfold live_run recent_run get_live_matches get_recent_matches
  cases normalizeCore buildRecordLive data <;>
    cases normalizeCore buildRecordRecent data <;>
      simp [List.append_assoc]

/-- Witness for C9 at two different UI-log states and a concrete payload. -/
theorem normalizer_pure_function_witness :
    (live_run ["earlier line"] bigPayload).1 = (live_run [] bigPayload).1 ∧
    (live_run ["earlier line"] bigPayload).1 = get_live_matches bigPayload ∧
    (∃ log, (live_run ["earlier line"] bigPayload).2 = ["earlier line"] ++ log) ∧
    (recent_run ["earlier line"] bigPayload).1 = (recent_run [] bigPayload).1 ∧
    (recent_run ["earlier line"] bigPayload).1 = get_recent_matches bigPayload ∧
    (∃ log, (recent_run ["earlier line"] bigPayload).2 = ["earlier line"] ++ log) :=
  normalizer_pure_function ["earlier line"] [] bigPayload

/-- C10: for every record the normalizer emits (under either entry point), the
upsert binds the constant default date — the normalizer stores the start date
under `start_date` while the upserter reads `date`, so the bound
`match_date` is always the literal `2024-08-29`; and the records always carry
a `state` key, while the upserter's `Unknown` substitute for `match_status`
applies exactly to input dicts whose `state` key is absent. -/
theorem upsert_key_mismatch :
    (∀ (payload : Json) (d : RecordDict), d ∈ get_recent_matches payload →
      (mkParams d).p_date = Json.str "2024-08-29" ∧ (dlookup "state" d).isSome = true) ∧
    (∀ (payload : Json) (d : RecordDict), d ∈ get_live_matches payload →
      (mkParams d).p_date = Json.str "2024-08-29" ∧ (dlookup "state" d).isSome = true) ∧
    (∀ d : RecordDict, dlookup "state" d = none →
      (mkParams d).p_state = Json.str "Unknown") ∧
    (∀ (d : RecordDict) (v : Json), dlookup "state" d = some v →
      (mkParams d).p_state = v) := by
  refine ⟨?_, ?_, ?_, ?_⟩
  · intro payload d hd
    unfold get_recent_matches at hd
    cases hn : normalizeCore buildRecordRecent payload with
    | error e => rw [hn] at hd; exact absurd hd (List.not_mem_nil d)
    | ok l =>
      rw [hn] at hd
      rcases normalizeCore_ok_mem hn (List.mem_of_mem_take hd) with ⟨mi, si, hb⟩
      have hkeys := buildRecordRecent_ok_keys hb
      constructor
      · have hnone : dlookup "date" d =
            none := dlookup_eq_none_of_keys d (by rw [hkeys]; decide)
        simp [mkParams, dictGetD, hnone]
      · exact dlookup_isSome_of_keys d (by rw [hkeys]; decide)
  · intro payload d hd
    unfold get_live_matches at hd
    cases hn : normalizeCore buildRecordLive payload with
    | error e => rw [hn] at hd; exact absurd hd (List.not_mem_nil d)
    | ok l =>
      rw [hn] at hd
      rcases normalizeCore_ok_mem hn hd with ⟨mi, si, hb⟩
      have hkeys := buildRecordLive_ok_keys hb
      constructor
      · have hnone : dlookup "date" d =
            none := dlookup_eq_none_of_keys d (by rw [hkeys]; decide)
        simp [mkParams, dictGetD, hnone]
      · exact dlookup_isSome_of_keys d (by rw [hkeys]; decide)
  · intro d h
    simp [mkParams, dictGetD, h]
  · intro d v h
    simp [mkParams, dictGetD, h]

/-- Witness for C10: the record the normalizer emits for an all-defaults match
entry of a one-match payload is bound to the constant date; an input dict with
no `state` key gets `Unknown`; a record's own empty-string state is bound
as-is. -/
theorem upsert_key_mismatch_witness :
    (mkParams (expRecordRecent (some "S") noInfo)).p_date = Json.str "2024-08-29" ∧
    (dlookup "state" (expRecordRecent (some "S") noInfo)).isSome = true ∧
    (mkParams [("status", Json.str "Live")]).p_state = Json.str "Unknown" ∧
    (mkParams (expRecordRecent (some "S") noInfo)).p_state = Json.str "" := by
  have h := upsert_key_mismatch
  have hmem : expRecordRecent (some "S") noInfo ∈
      get_recent_matches (encPayload [some [some ⟨some "S", some [none]⟩]]) := by
    decide
  refine ⟨(h.1 _ _ hmem).1, (h.1 _ _ hmem).2, h.2.2.1 _ (by decide),
    h.2.2.2 _ (Json.str "") (by decide)⟩
